import Mathlib

/-!
Verification development for the highfive webhook bot
(`cgi-bin/helpers/runner.py` and `highfive/api_provider/interface.py`).

The Python code is shallowly embedded as pure Lean functions:

* mutable object state (`InstallationHandler`) becomes an explicit state
  record threaded through each method;
* network traffic becomes an oracle: a list of `Response` values consumed
  in order, and every outgoing request is recorded as an `Event`;
* Python exceptions become `Except PyErr`; an exception raised in the
  middle of a method aborts the rest of the method but keeps the
  mutations already performed, so each method returns its state and the
  events emitted so far alongside the error;
* library calls whose internals are irrelevant to the logic under
  verification (`jose.jwt.encode`, `dateutil.parser.parse`, `str()` of a
  datetime, `json.loads`, gzip decompression) are parameters of a `Ctx`
  record; `none` results model the exceptions the code catches
  (`IOError` from `GzipFile`, `TypeError`/`ValueError` from `json.loads`);
* Python dicts become association lists with lookup-based update.

Timestamps are modelled as integers (epoch seconds); the float wait
interval is modelled as a rational number.  A single `now` is used for
one method invocation (the code calls `time.time()` / `datetime.now()`
afresh but the claims do not depend on intra-call clock drift).
-/

/-- A JSON value, the result of `json.loads`. -/
inductive JVal where
  | jnull
  | jbool (b : Bool)
  | jnum (n : Int)
  | jstr (s : String)
  | jarr (xs : List JVal)
  | jobj (fields : List (String × JVal))

/-- Dictionary key lookup `v[k]` on a decoded JSON object. -/
def JVal.get? : JVal → String → Option JVal
  | .jobj fs, k => fs.lookup k
  | _, _ => none

/-- Python dict assignment `m[k] = v` on an association list. -/
def dictSet {α : Type} : List (Nat × α) → Nat → α → List (Nat × α)
  | [], k, v => [(k, v)]
  | (k0, v0) :: rest, k, v =>
    if k0 = k then (k, v) :: rest else (k0, v0) :: dictSet rest k v

/-- Python `m.setdefault(k, v)`: insert only when the key is absent
(the default value is evaluated eagerly in Python, but a discarded pure
value leaves no trace in the embedding). -/
def dictSetdefault {α : Type} (m : List (Nat × α)) (k : Nat) (v : α) :
    List (Nat × α) :=
  if (m.lookup k).isSome then m else (k, v) :: m

/-- Ambient collaborators of `InstallationHandler`: the integration id
from the runner and the library functions the handler calls.
`jwtEnc iat exp iss` stands for `jose.jwt.encode` of the claim set
`{iat, exp, iss}` with the PEM key; `dtParse`/`dtFormat` stand for
`dateutil.parser.parse` and `'%s' % datetime`; `jsonLoads` returns
`none` where `json.loads` raises `TypeError`/`ValueError`; `gunzip`
returns `none` where `GzipFile(...).read()` raises `IOError`. -/
structure Ctx where
  integration_id : Nat
  jwtEnc : Int → Int → Nat → String
  dtParse : String → Int
  dtFormat : Int → String
  jsonLoads : String → Option JVal
  gunzip : String → Option String

def base_url : String := "https://api.github.com"

/-- Value of `self.installation_url % inst_id` as set in `__init__`. -/
def installation_url (inst_id : Nat) : String :=
  base_url ++ "/installations/" ++ toString inst_id ++ "/access_tokens"

def rate_limit_url : String := base_url ++ "/rate_limit"

/-- One HTTP response supplied by the network oracle: status code, body
text (`resp.text`) and whether the `Content-Encoding: gzip` header is
present. -/
structure Response where
  status : Int
  body : String
  gzipEncoded : Bool

/-- Python exceptions that escape the embedded methods: `exc` is the
bare `raise Exception` of `_request` (and the `KeyError`/`TypeError` of
a malformed structured response), `zeroDiv` is the `ZeroDivisionError`
of `(reset - now) / float(0)`, `noResponse` marks an exhausted oracle
(network unavailable). -/
inductive PyErr where
  | exc
  | zeroDiv
  | noResponse

/-- The record `update_config` stores under `runner.config[inst_id]`. -/
structure InstRecord where
  remaining : Int
  expires_at : String
  reset : Int
  token : Option String

/-- Externally observable actions of the handler, in program order:
signing the JWT assertion, an outgoing HTTP request (with its
`Authorization` value), `sleep(interval)`, and the
`update_config` write of one installation record. -/
inductive Event where
  | jwtSign (iat exp : Int) (iss : Nat)
  | http (auth method url : String) (data : Option String)
  | sleep (interval : ℚ)
  | persist (id : Nat) (rec : InstRecord)

/-- Model of `runner.config`: the handler reads the four top-level keys in
`__init__` (absent keys fall back to the `.get` defaults) and
`update_config` writes a per-installation record under the integer
key `inst_id`. -/
structure Config where
  remaining : Option Int
  reset : Option Int
  expires_at : Option String
  token : Option String
  byId : List (Nat × InstRecord)

def Config.empty : Config := ⟨none, none, none, none, []⟩

/-- The mutable state of one `InstallationHandler`. -/
structure IHState where
  inst_id : Nat
  remaining : Int
  reset_time : Int
  next_token_sync : Int
  token : Option String

/-- Method `InstallationHandler.__init__(runner, inst_id)` executed at wall
clock `now`: `remaining = config.get('remaining', 0)`,
`reset_time = config.get('reset', int(time.time()) - 60)`,
`next_token_sync = datetime_parse(config.get('expires_at', '%s' % datetime.now()))`,
`token = config.get('token')`.  Note that the reads are of *top-level*
keys of `runner.config`, not of `runner.config[inst_id]`. -/
def IHState.init (ctx : Ctx) (cfg : Config) (now : Int) (inst_id : Nat) :
    IHState :=
  { inst_id := inst_id
    remaining := cfg.remaining.getD 0
    reset_time := cfg.reset.getD (now - 60)
    next_token_sync := ctx.dtParse (cfg.expires_at.getD (ctx.dtFormat now))
    token := cfg.token }

/-- Result of JSON decoding a response body: structured value or the
raw string fallback. -/
inductive DecResult where
  | json (v : JVal)
  | str (s : String)

/-- Output of one `_request` call. -/
structure ReqOut where
  res : Except PyErr DecResult
  evs : List Event
  rest : List Response

/-- The decode tail of `_request` (runs only on 2xx): gunzip the body
when the `Content-Encoding: gzip` header is present (keeping the raw
body on `IOError`), then `json.loads`, returning the raw string on
decode failure. -/
def decodeBody (ctx : Ctx) (r : Response) : DecResult :=
  let data := if r.gzipEncoded then (ctx.gunzip r.body).getD r.body else r.body
  match ctx.jsonLoads data with
  | some v => .json v
  | none => .str data

/-- Method `InstallationHandler._request(auth, method, url, data)`: performs
the HTTP call (consuming the next oracle response), raises a bare
`Exception` when the status is outside 200-299, otherwise decodes the
body. -/
def requestOne (ctx : Ctx) (auth method url : String) (data : Option String)
    (rs : List Response) : ReqOut :=
  match rs with
  | [] => ⟨.error .noResponse, [.http auth method url data], []⟩
  | r :: rest =>
    if r.status < 200 ∨ 300 ≤ r.status then
      ⟨.error .exc, [.http auth method url data], rest⟩
    else
      ⟨.ok (decodeBody ctx r), [.http auth method url data], rest⟩

/-- Output of `sync_token` / `wait_time` / `queue_request`. -/
structure SyncOut where
  res : Except PyErr Unit
  st : IHState
  evs : List Event
  rest : List Response

structure WaitOut where
  res : Except PyErr ℚ
  st : IHState
  evs : List Event
  rest : List Response

structure QueueOut where
  res : Except PyErr DecResult
  st : IHState
  config : Config
  evs : List Event
  rest : List Response

/-- Method `InstallationHandler.sync_token()`: when `now >= next_token_sync`,
sign the JWT assertion `{iat: now, exp: now + 600, iss: integration_id}`
and POST it to the installation's access-token endpoint, then store
`resp['token']` and `datetime_parse(resp['expires_at'])`; otherwise a
no-op.  A malformed exchange response raises (`KeyError`), keeping the
mutations already performed. -/
def sync_token (ctx : Ctx) (st : IHState) (now : Int) (rs : List Response) :
    SyncOut :=
  if st.next_token_sync ≤ now then
    let auth := "Bearer " ++ ctx.jwtEnc now (now + 600) ctx.integration_id
    let signEv := Event.jwtSign now (now + 600) ctx.integration_id
    match requestOne ctx auth "POST" (installation_url st.inst_id) none rs with
    | ⟨.error e, evs, rest⟩ => ⟨.error e, st, signEv :: evs, rest⟩
    | ⟨.ok (.str _), evs, rest⟩ => ⟨.error .exc, st, signEv :: evs, rest⟩
    | ⟨.ok (.json v), evs, rest⟩ =>
      match v.get? "token" with
      | some (.jstr tok) =>
        let st1 := { st with token := some tok }
        match v.get? "expires_at" with
        | some (.jstr ex) =>
          ⟨.ok (), { st1 with next_token_sync := ctx.dtParse ex },
            signEv :: evs, rest⟩
        | _ => ⟨.error .exc, st1, signEv :: evs, rest⟩
      | _ => ⟨.error .exc, st, signEv :: evs, rest⟩
  else ⟨.ok (), st, [], rs⟩

/-- Method `InstallationHandler.wait_time()`: re-sync `reset_time` and
`remaining` from the `/rate_limit` endpoint when `now >= reset_time`
(assigning `reset_time` first, as the code does), then return
`(reset_time - now) / float(remaining)`.  The division raises
`ZeroDivisionError` when `remaining == 0`; there is no guard for that
case in the source. -/
def wait_time (ctx : Ctx) (st : IHState) (now : Int) (rs : List Response) :
    WaitOut :=
  let sync : SyncOut :=
    if st.reset_time ≤ now then
      let auth := "token " ++ st.token.getD "None"
      match requestOne ctx auth "GET" rate_limit_url none rs with
      | ⟨.error e, evs, rest⟩ => ⟨.error e, st, evs, rest⟩
      | ⟨.ok (.str _), evs, rest⟩ => ⟨.error .exc, st, evs, rest⟩
      | ⟨.ok (.json v), evs, rest⟩ =>
        match v.get? "rate" with
        | some rate =>
          match rate.get? "reset" with
          | some (.jnum reset) =>
            let st1 := { st with reset_time := reset }
            match rate.get? "remaining" with
            | some (.jnum rem) =>
              ⟨.ok (), { st1 with remaining := rem }, evs, rest⟩
            | _ => ⟨.error .exc, st1, evs, rest⟩
          | _ => ⟨.error .exc, st, evs, rest⟩
        | none => ⟨.error .exc, st, evs, rest⟩
    else ⟨.ok (), st, [], rs⟩
  match sync with
  | ⟨.error e, st1, evs, rest⟩ => ⟨.error e, st1, evs, rest⟩
  | ⟨.ok (), st1, evs, rest⟩ =>
    if st1.remaining = 0 then ⟨.error .zeroDiv, st1, evs, rest⟩
    else
      ⟨.ok (((st1.reset_time - now : Int) : ℚ) / (st1.remaining : ℚ)),
        st1, evs, rest⟩

/-- Method `InstallationHandler.update_config()`: the record written under
`runner.config[self._id]`. -/
def update_config (ctx : Ctx) (st : IHState) : InstRecord :=
  { remaining := st.remaining
    expires_at := ctx.dtFormat st.next_token_sync
    reset := st.reset_time
    token := st.token }

/-- Method `InstallationHandler.queue_request(method, url, data)`: sync the
token, compute the wait interval (re-syncing the budget if the window
elapsed), sleep for it, decrement `remaining`, persist via
`update_config`, and only then perform the call with
`'token %s' % self.token`.  An exception from an earlier step aborts
the later steps. -/
def queue_request (ctx : Ctx) (st : IHState) (cfg : Config) (now : Int)
    (method url : String) (data : Option String) (rs : List Response) :
    QueueOut :=
  match sync_token ctx st now rs with
  | ⟨.error e, st1, evs1, rest1⟩ => ⟨.error e, st1, cfg, evs1, rest1⟩
  | ⟨.ok (), st1, evs1, rest1⟩ =>
    match wait_time ctx st1 now rest1 with
    | ⟨.error e, st2, evs2, rest2⟩ => ⟨.error e, st2, cfg, evs1 ++ evs2, rest2⟩
    | ⟨.ok interval, st2, evs2, rest2⟩ =>
      let st3 := { st2 with remaining := st2.remaining - 1 }
      let rec0 := update_config ctx st3
      let cfg1 := { cfg with byId := dictSet cfg.byId st3.inst_id rec0 }
      let auth := "token " ++ st3.token.getD "None"
      let out := requestOne ctx auth method url data rest2
      ⟨out.res, st3, cfg1,
        evs1 ++ evs2 ++ [Event.sleep interval, Event.persist st3.inst_id rec0]
          ++ out.evs, out.rest⟩

/-- The state of one `SyncHandler`: the wrapped installation's id and the
`InstallationHandler` whose bound `queue_request` it stores. -/
structure SyncHandlerSt where
  _id : Nat
  handler : IHState

/-- The registry owned by `Runner`: `self.installations` and
`self.sync_runners`, plus the shared `runner.config` store read by
`InstallationHandler.__init__`. -/
structure RunnerSt where
  config : Config
  installations : List (Nat × IHState)
  sync_runners : List (Nat × SyncHandlerSt)

/-- Method `Runner.set_installation(inst_id)`:
`installations.setdefault(inst_id, InstallationHandler(self, inst_id))`,
then `sync_runners.setdefault(inst_id, SyncHandler(installations[inst_id]))`
(the freshly constructed handler is discarded when the key already
exists). -/
def set_installation (ctx : Ctx) (now : Int) (r : RunnerSt) (inst_id : Nat) :
    RunnerSt :=
  let fresh := IHState.init ctx r.config now inst_id
  let insts := dictSetdefault r.installations inst_id fresh
  let h := (insts.lookup inst_id).getD fresh
  let syncs := dictSetdefault r.sync_runners inst_id ⟨inst_id, h⟩
  { r with installations := insts, sync_runners := syncs }

/-- Total virtual time spent sleeping in a trace. -/
def elapsed : List Event → ℚ
  | [] => 0
  | .sleep i :: rest => i + elapsed rest
  | _ :: rest => elapsed rest

/-- Whether a trace contains an HTTP request to `url`. -/
def hasHttpTo (url : String) : List Event → Bool
  | [] => false
  | .http _ _ u _ :: rest => u = url || hasHttpTo url rest
  | _ :: rest => hasHttpTo url rest

/-- Virtual time (sum of the sleeps that precede it) at which the first
HTTP request to `url` is issued in a trace, `none` when there is no such
request. -/
def timeOfFirstHttpTo (url : String) : List Event → Option ℚ
  | [] => none
  | .sleep i :: rest => (timeOfFirstHttpTo url rest).map (fun t => i + t)
  | .http _ _ u _ :: rest =>
    if u = url then some 0 else timeOfFirstHttpTo url rest
  | _ :: rest => timeOfFirstHttpTo url rest

/-- The loop body of `Runner.start_sync` / `Runner.poke_data`: posts to
each installation's sync runner one after another in the same thread,
each post issuing one `queue_request` (here a GET of the given url with
its own oracle), threading the shared `runner.config` and concatenating
the event streams in loop order. -/
def pokeAll (ctx : Ctx) (cfg : Config) (now : Int) :
    List (IHState × String × List Response) → List Event
  | [] => []
  | (st, url, rs) :: rest =>
    let out := queue_request ctx st cfg now "GET" url none rs
    out.evs ++ pokeAll ctx out.config now rest

/-- Number of token refreshes (JWT signings) in a trace. -/
def countRefresh (evs : List Event) : Nat :=
  evs.countP fun e => match e with | .jwtSign _ _ _ => true | _ => false

/-!  The thin payload-extraction wrapper
(`highfive/api_provider/interface.py`).  A payload dict is modelled by
an explicit record of the optional parts `APIProvider.__init__` reads;
each `Option` field is `none` exactly when the corresponding key is
absent (or falsy) in the dict. -/

/-- The `DEFAULTS` list of attribute names set to `None` at init. -/
def DEFAULTS : List String :=
  ["is_pull", "pull_url", "is_open", "creator", "last_updated", "number",
   "sender", "owner", "repo", "current_label", "assignee", "comment", "labels"]

/-- Part `payload['repository']`: `owner.login` and `name`. -/
structure RepoInfo where
  owner_login : String
  name : String

/-- Part `payload['pull_request']`: the fields `__init__` reads. -/
structure PullRequestData where
  url : String
  user_login : String
  state : String
  updated_at : Option String
  number : Int

/-- Part `payload['issue']`: the fields `__init__` reads;
`pull_request_present` models `issue.get("pull_request") is not None`. -/
structure IssueData where
  user_login : String
  state : String
  updated_at : Option String
  number : Int
  labels : List String
  pull_request_present : Bool

/-- Part `payload['comment']`: the body text. -/
structure CommentData where
  body : String

/-- The parts of a webhook payload dict that `APIProvider.__init__`
inspects; `sender_login` is `payload['sender']['login']`. -/
structure Payload where
  repository : Option RepoInfo
  sender_login : Option String
  pull_request : Option PullRequestData
  issue : Option IssueData
  comment : Option CommentData

def Payload.empty : Payload := ⟨none, none, none, none, none⟩

/-- The attributes of `APIProvider` named in `DEFAULTS`, one field per
name, each `none` in the pristine state. -/
structure APIProvider where
  is_pull : Option Bool := none
  pull_url : Option String := none
  is_open : Option Bool := none
  creator : Option String := none
  last_updated : Option String := none
  number : Option Int := none
  sender : Option String := none
  owner : Option String := none
  repo : Option String := none
  current_label : Option String := none
  assignee : Option String := none
  comment : Option String := none
  labels : Option (List String) := none

/-- The object right after the `for attr in DEFAULTS: setattr(self, attr, None)`
loop: every `DEFAULTS` attribute defined and equal to `None`. -/
def APIProvider.defaults : APIProvider := {}

/-- Method `APIProvider.__init__(config, payload)` (the `DEFAULTS` attributes
only; `name`, `config`, `payload` and the logger are omitted): set every
default attribute to `None`, then fill from the repository, sender,
pull_request / issue (elif), and comment parts of the payload, exactly
as the source does. -/
def APIProvider.init (payload : Payload) : APIProvider :=
  let a : APIProvider := {}
  let a : APIProvider :=
    match payload.repository with
    | some r => { a with owner := some r.owner_login, repo := some r.name }
    | none => a
  let a : APIProvider :=
    match payload.sender_login with
    | some s => { a with sender := some s.toLower }
    | none => a
  let a : APIProvider :=
    match payload.pull_request with
    | some pr =>
      { a with is_pull := some true, pull_url := some pr.url,
               creator := some pr.user_login.toLower,
               is_open := some (pr.state == "open"),
               last_updated := pr.updated_at, number := some pr.number }
    | none =>
      match payload.issue with
      | some i =>
        { a with is_pull := some false, creator := some i.user_login.toLower,
                 is_open := some (i.state.toLower == "open"),
                 last_updated := i.updated_at, number := some i.number,
                 labels := some i.labels }
      | none => a
  match payload.comment with
  | some c =>
    { a with comment := some c.body,
             is_pull :=
               some ((payload.issue.map fun i => i.pull_request_present).getD false) }
  | none => a

/-!  Concrete instances used by witnesses and counterexamples.  The
library oracles are fixed to simple computable functions: marker strings
stand for the raw bodies whose `json.loads` / gzip results are the
structured values shown. -/

/-- Decoded body of a token-exchange response:
`{"token": "TOK", "expires_at": "4600"}`. -/
def tokObj : JVal := .jobj [("token", .jstr "TOK"), ("expires_at", .jstr "4600")]

/-- Decoded body of a `/rate_limit` response:
`{"rate": {"remaining": 50, "reset": 1500}}`. -/
def rateObj : JVal :=
  .jobj [("rate", .jobj [("remaining", .jnum 50), ("reset", .jnum 1500)])]

/-- Decoded body `{"ok": true}`. -/
def okObj : JVal := .jobj [("ok", .jbool true)]

/-- Decimal digits to a number, for the concrete timestamp parser. -/
def natOfDigits (cs : List Char) : Nat :=
  cs.foldl (fun acc c => acc * 10 + (c.toNat - 48)) 0

/-- A concrete collaborator context: integration id 7, a trivial signer,
timestamps rendered/parsed as decimal strings, and a JSON/gzip oracle
keyed on marker strings. -/
def ctxW : Ctx where
  integration_id := 7
  jwtEnc := fun iat e iss =>
    "JWT." ++ toString iat ++ "." ++ toString e ++ "." ++ toString iss
  dtParse := fun s => (natOfDigits s.data : Int)
  dtFormat := fun t => toString t
  jsonLoads := fun s =>
    if s = "TOKBODY" then some tokObj
    else if s = "RATEBODY" then some rateObj
    else if s = "OKJSON" then some okObj
    else none
  gunzip := fun s => if s = "GZBODY" then some "OKJSON" else none

/-!  Helper lemmas about the embedded methods. -/

/-- Helper: `sync_token` is a no-op while the stored expiry is in the future. -/
theorem sync_token_noop (ctx : Ctx) (st : IHState) (now : Int)
    (rs : List Response) (h : now < st.next_token_sync) :
    sync_token ctx st now rs = ⟨.ok (), st, [], rs⟩ := by
  unfold sync_token
  rw [if_neg (by omega)]

/-- Helper: `sync_token` on an expired token with a well-formed 2xx exchange
response: signs the assertion `{iat: now, exp: now + 600, iss}`, POSTs it
to the installation endpoint, and stores the token and parsed expiry. -/
theorem sync_token_refresh_eq (ctx : Ctx) (st : IHState) (now : Int)
    (body tok ex : String) (rest' : List Response)
    (hexp : st.next_token_sync ≤ now)
    (hjson : ctx.jsonLoads body =
      some (.jobj [("token", .jstr tok), ("expires_at", .jstr ex)])) :
    sync_token ctx st now (⟨200, body, false⟩ :: rest') =
      ⟨.ok (), { st with token := some tok, next_token_sync := ctx.dtParse ex },
        [.jwtSign now (now + 600) ctx.integration_id,
         .http ("Bearer " ++ ctx.jwtEnc now (now + 600) ctx.integration_id)
           "POST" (installation_url st.inst_id) none], rest'⟩ := by
  unfold sync_token requestOne decodeBody
  rw [if_pos hexp]
  norm_num [hjson, JVal.get?, List.lookup]
  rfl

/-- Helper: `wait_time` without a window re-sync (`now < reset_time`) and with a
nonzero budget returns the uniform interval and touches nothing. -/
theorem wait_time_no_resync (ctx : Ctx) (st : IHState) (now : Int)
    (rs : List Response) (hlt : now < st.reset_time) (hrem : st.remaining ≠ 0) :
    wait_time ctx st now rs =
      ⟨.ok (((st.reset_time - now : Int) : ℚ) / (st.remaining : ℚ)),
        st, [], rs⟩ := by
  unfold wait_time
  rw [if_neg (by omega)]
  simp [hrem]

/-- Helper: `wait_time` with an elapsed window and a well-formed 2xx
`/rate_limit` response: re-syncs `reset_time` and `remaining`, then
returns the uniform interval from the fresh numbers. -/
theorem wait_time_resync_eq (ctx : Ctx) (st : IHState) (now : Int)
    (body : String) (rem reset : Int) (rest' : List Response)
    (hle : st.reset_time ≤ now)
    (hjson : ctx.jsonLoads body =
      some (.jobj [("rate", .jobj [("remaining", .jnum rem), ("reset", .jnum reset)])]))
    (hrem : rem ≠ 0) :
    wait_time ctx st now (⟨200, body, false⟩ :: rest') =
      ⟨.ok (((reset - now : Int) : ℚ) / (rem : ℚ)),
        { st with reset_time := reset, remaining := rem },
        [.http ("token " ++ st.token.getD "None") "GET" rate_limit_url none],
        rest'⟩ := by
  unfold wait_time requestOne decodeBody
  rw [if_pos hle]
  norm_num [hjson, JVal.get?, List.lookup]
  rw [show (("reset" == "remaining") : Bool) = false from rfl]
  simp [hrem]

/-- C7: for every state with `now < resetAt` (and a positive remaining
budget, as in both of the claim's examples), the computed wait interval
equals `(resetAt - now) / remaining`, no re-sync happens and the state
is untouched. -/
theorem C7_wait_interval_is_uniform_spacing (ctx : Ctx) (st : IHState)
    (now : Int) (rs : List Response)
    (hnow : now < st.reset_time) (hrem : 0 < st.remaining) :
    wait_time ctx st now rs =
      ⟨.ok (((st.reset_time - now : Int) : ℚ) / (st.remaining : ℚ)),
        st, [], rs⟩ :=
  wait_time_no_resync ctx st now rs hnow (by omega)

/-- Witness for C7: with `remaining = 1, resetAt = now + 100` the
interval is 100 seconds; with `remaining = 100` it is 1 second. -/
theorem C7_wait_interval_is_uniform_spacing_witness :
    wait_time ctxW ⟨42, 1, 1100, 4600, some "TOK"⟩ 1000 [] =
      ⟨.ok 100, ⟨42, 1, 1100, 4600, some "TOK"⟩, [], []⟩ ∧
    wait_time ctxW ⟨42, 100, 1100, 4600, some "TOK"⟩ 1000 [] =
      ⟨.ok 1, ⟨42, 100, 1100, 4600, some "TOK"⟩, [], []⟩ := by
  constructor
  · rw [C7_wait_interval_is_uniform_spacing ctxW _ 1000 [] (by norm_num) (by norm_num)]
    norm_num
  · rw [C7_wait_interval_is_uniform_spacing ctxW _ 1000 [] (by norm_num) (by norm_num)]
    norm_num

/-- C2: the claim is false of the code.  With `remaining = 0` and the
reset still in the future (`now = 1000 < 1100 = reset_time`),
`wait_time` raises `ZeroDivisionError` and performs no re-sync at all
(no HTTP request is issued: the event list is empty), instead of the
claimed forced blocking re-sync. -/
theorem C2_zero_remaining_divides_by_zero :
    wait_time ctxW ⟨42, 0, 1100, 4600, some "TOK"⟩ 1000 [] =
      ⟨.error .zeroDiv, ⟨42, 0, 1100, 4600, some "TOK"⟩, [], []⟩ := by
  rfl

/-- A persisted store holding, under installation id 42, the exact
record `update_config` writes for a handler with token `"TOK"`, expiry
4600, and budget 5/1500. -/
def cfgPersisted : Config :=
  ⟨none, none, none, none, [(42, ⟨5, "4600", 1500, some "TOK"⟩)]⟩

/-- C3: the claim is false of the code.  `cfgPersisted` holds under key
42 exactly the record `update_config` persists for a handler with token
`"TOK"`, expiry 4600 and budget 5/1500 (first conjunct); yet the handler
reconstructed from it at time 1000 (< 4600) has no token and an expiry
equal to its construction time (`__init__` reads the top-level keys of
the config, not `config[42]`), so its first `sync_token` performs a full
token refresh (one JWT signing) despite the persisted future expiry. -/
theorem C3_reload_ignores_persisted_state :
    update_config ctxW ⟨42, 5, 1500, 4600, some "TOK"⟩ =
      ⟨5, "4600", 1500, some "TOK"⟩ ∧
    (IHState.init ctxW cfgPersisted 1000 42).token = none ∧
    (IHState.init ctxW cfgPersisted 1000 42).next_token_sync = 1000 ∧
    countRefresh
      (sync_token ctxW (IHState.init ctxW cfgPersisted 1000 42) 1000
        [⟨200, "TOKBODY", false⟩]).evs = 1 := by
  exact ⟨rfl, rfl, rfl, rfl⟩

/-- After a `setdefault`, the key is present. -/
theorem lookup_dictSetdefault_isSome {α : Type} (m : List (Nat × α))
    (k : Nat) (v : α) : ((dictSetdefault m k v).lookup k).isSome := by
  unfold dictSetdefault
  cases h : (m.lookup k).isSome with
  | true => simp [h]
  | false => simp [List.lookup]

/-- Helper: `setdefault` on a present key returns the dict unchanged. -/
theorem dictSetdefault_of_isSome {α : Type} (m : List (Nat × α))
    (k : Nat) (v : α) (h : (m.lookup k).isSome) :
    dictSetdefault m k v = m := if_pos h

/-- C8: `Runner.set_installation` is idempotent: a second call with the
same installation id (at any later time) leaves the registry exactly as
the first call left it — the same handler and sync-runner entries, no
duplicates. -/
theorem C8_set_installation_idempotent (ctx : Ctx) (now1 now2 : Int)
    (r : RunnerSt) (inst_id : Nat) :
    set_installation ctx now2 (set_installation ctx now1 r inst_id) inst_id =
      set_installation ctx now1 r inst_id := by
  unfold set_installation
  simp only
  rw [dictSetdefault_of_isSome _ _ _ (lookup_dictSetdefault_isSome _ _ _)]
  rw [dictSetdefault_of_isSome _ _ _ (lookup_dictSetdefault_isSome _ _ _)]

/-- C10: after `APIProvider.__init__`, every attribute in `DEFAULTS` is
defined (the record is total), each is `none` whenever the payload does
not supply the corresponding part (`current_label` and `assignee` are
never filled at all), and the empty payload leaves all of them `none`. -/
theorem C10_defaults_are_none_without_payload_data (p : Payload) :
    APIProvider.init Payload.empty = APIProvider.defaults ∧
    (p.repository = none →
      (APIProvider.init p).owner = none ∧ (APIProvider.init p).repo = none) ∧
    (p.sender_login = none → (APIProvider.init p).sender = none) ∧
    (p.pull_request = none → p.issue = none → p.comment = none →
      (APIProvider.init p).is_pull = none ∧ (APIProvider.init p).is_open = none ∧
      (APIProvider.init p).creator = none ∧
      (APIProvider.init p).last_updated = none ∧
      (APIProvider.init p).number = none) ∧
    (p.pull_request = none → (APIProvider.init p).pull_url = none) ∧
    (p.issue = none → (APIProvider.init p).labels = none) ∧
    (p.comment = none → (APIProvider.init p).comment = none) ∧
    (APIProvider.init p).current_label = none ∧
    (APIProvider.init p).assignee = none := by
  obtain ⟨repo, snd, pr, iss, com⟩ := p
  cases repo <;> cases snd <;> cases pr <;> cases iss <;> cases com <;>
    simp [APIProvider.init, APIProvider.defaults, Payload.empty]

/-- Witness for C10 at the empty payload: every `DEFAULTS` attribute of
the constructed object is `none`. -/
theorem C10_defaults_are_none_without_payload_data_witness :
    APIProvider.init Payload.empty = APIProvider.defaults ∧
    (APIProvider.init Payload.empty).owner = none ∧
    (APIProvider.init Payload.empty).is_pull = none ∧
    (APIProvider.init Payload.empty).labels = none ∧
    (APIProvider.init Payload.empty).comment = none ∧
    (APIProvider.init Payload.empty).current_label = none := by
  have h := C10_defaults_are_none_without_payload_data Payload.empty
  exact ⟨h.1, (h.2.1 rfl).1, (h.2.2.2.1 rfl rfl rfl).1,
    h.2.2.2.2.2.1 rfl, h.2.2.2.2.2.2.1 rfl, h.2.2.2.2.2.2.2.1⟩

/-- C6: response decoding of a successful call.  A gzip-encoded body
whose decompression JSON-decodes to `v` yields the structured value `v`;
a plain body that is not JSON-decodable is returned as the raw string,
unchanged, with no error. -/
theorem C6_gzip_and_raw_string_decoding (ctx : Ctx)
    (auth m u gz plain rawDiff : String) (v : JVal)
    (hgz : ctx.gunzip gz = some plain)
    (hjson : ctx.jsonLoads plain = some v)
    (hraw : ctx.jsonLoads rawDiff = none) :
    requestOne ctx auth m u none [⟨200, gz, true⟩] =
      ⟨.ok (.json v), [.http auth m u none], []⟩ ∧
    requestOne ctx auth m u none [⟨200, rawDiff, false⟩] =
      ⟨.ok (.str rawDiff), [.http auth m u none], []⟩ := by
  constructor <;> norm_num [requestOne, decodeBody, hgz, hjson, hraw]

/-- Witness for C6: a gzip body standing for compressed
`{"ok": true}` decodes to the structured `{ok: true}`; a literal diff
text comes back as the same raw string. -/
theorem C6_gzip_and_raw_string_decoding_witness :
    requestOne ctxW "token TOK" "GET" "/x" none [⟨200, "GZBODY", true⟩] =
      ⟨.ok (.json okObj), [.http "token TOK" "GET" "/x" none], []⟩ ∧
    requestOne ctxW "token TOK" "GET" "/x" none [⟨200, "diff text", false⟩] =
      ⟨.ok (.str "diff text"), [.http "token TOK" "GET" "/x" none], []⟩ :=
  C6_gzip_and_raw_string_decoding ctxW "token TOK" "GET" "/x" "GZBODY"
    "OKJSON" "diff text" okObj rfl rfl rfl

/-- C5: `sync_token` on an expired token builds the signed assertion
with claims `{iat: now, exp: now + 600, iss: integration_id}`, exchanges
it via an authenticated POST to the token-issuance endpoint and stores
the returned token and parsed expiry; a second call while the stored
expiry is still in the future is a no-op, so the two calls together
perform exactly one refresh. -/
theorem C5_sync_token_refreshes_exactly_once (ctx : Ctx) (st : IHState)
    (now1 now2 : Int) (body tok ex : String)
    (hexp : st.next_token_sync ≤ now1)
    (hjson : ctx.jsonLoads body =
      some (.jobj [("token", .jstr tok), ("expires_at", .jstr ex)]))
    (hfut : now2 < ctx.dtParse ex) :
    sync_token ctx st now1 [⟨200, body, false⟩] =
      ⟨.ok (), { st with token := some tok, next_token_sync := ctx.dtParse ex },
        [.jwtSign now1 (now1 + 600) ctx.integration_id,
         .http ("Bearer " ++ ctx.jwtEnc now1 (now1 + 600) ctx.integration_id)
           "POST" (installation_url st.inst_id) none], []⟩ ∧
    sync_token ctx { st with token := some tok, next_token_sync := ctx.dtParse ex }
        now2 [] =
      ⟨.ok (), { st with token := some tok, next_token_sync := ctx.dtParse ex },
        [], []⟩ ∧
    countRefresh
      ((sync_token ctx st now1 [⟨200, body, false⟩]).evs ++
        (sync_token ctx
          { st with token := some tok, next_token_sync := ctx.dtParse ex }
          now2 []).evs) = 1 := by
  have h1 := sync_token_refresh_eq ctx st now1 body tok ex [] hexp hjson
  have h2 := sync_token_noop ctx
    { st with token := some tok, next_token_sync := ctx.dtParse ex } now2 []
    (by simpa using hfut)
  refine ⟨h1, h2, ?_⟩
  rw [h1, h2]
  rfl

/-- Witness for C5: installation 42 with an expired token at time 1000;
the refresh stores token `"TOK"` expiring at 4600, and a second call at
time 2000 is a no-op — one JWT signing in total. -/
theorem C5_sync_token_refreshes_exactly_once_witness :
    sync_token ctxW ⟨42, 5, 2000, 900, none⟩ 1000 [⟨200, "TOKBODY", false⟩] =
      ⟨.ok (), ⟨42, 5, 2000, 4600, some "TOK"⟩,
        [.jwtSign 1000 1600 7,
         .http ("Bearer " ++ ctxW.jwtEnc 1000 1600 7) "POST"
           (installation_url 42) none], []⟩ ∧
    sync_token ctxW ⟨42, 5, 2000, 4600, some "TOK"⟩ 2000 [] =
      ⟨.ok (), ⟨42, 5, 2000, 4600, some "TOK"⟩, [], []⟩ ∧
    countRefresh
      ((sync_token ctxW ⟨42, 5, 2000, 900, none⟩ 1000
          [⟨200, "TOKBODY", false⟩]).evs ++
        (sync_token ctxW ⟨42, 5, 2000, 4600, some "TOK"⟩ 2000 []).evs) = 1 := by
  have h := C5_sync_token_refreshes_exactly_once ctxW ⟨42, 5, 2000, 900, none⟩
    1000 2000 "TOKBODY" "TOK" "4600" (by norm_num) rfl (by decide)
  exact ⟨h.1, h.2.1, h.2.2⟩

/-- Helper: `_request` on an available response emits exactly one HTTP event. -/
theorem requestOne_evs (ctx : Ctx) (auth m u : String) (d : Option String)
    (r : Response) (l : List Response) :
    (requestOne ctx auth m u d (r :: l)).evs = [.http auth m u d] := by
  simp only [requestOne]
  split <;> rfl

/-- Helper: `_request` on an available response consumes exactly that response. -/
theorem requestOne_rest (ctx : Ctx) (auth m u : String) (d : Option String)
    (r : Response) (l : List Response) :
    (requestOne ctx auth m u d (r :: l)).rest = l := by
  simp only [requestOne]
  split <;> rfl

/-- Helper: `_request` on a response with a status outside 200-299 raises the
bare exception, after emitting the HTTP event. -/
theorem requestOne_err (ctx : Ctx) (auth m u : String) (d : Option String)
    (r : Response) (l : List Response)
    (h : r.status < 200 ∨ 300 ≤ r.status) :
    requestOne ctx auth m u d (r :: l) =
      ⟨.error .exc, [.http auth m u d], l⟩ := by
  simp only [requestOne]
  rw [if_pos h]

/-- C1: first `queue_request` of an installation with no persisted
state (`Config.empty`), given well-formed token and rate-limit
responses.  In order: JWT signing and exchange (POST to the
access-tokens endpoint), fetch of `/rate_limit` with the fresh token,
sleep for `(reset - now) / remaining`, persistence of the state with
`remaining` decremented by 1, and only then the requested call
`GET /x` with the current token. -/
theorem C1_first_enqueue_runs_steps_in_order (ctx : Ctx) (inst_id : Nat)
    (now : Int) (tokBody rateBody tok ex : String) (rem reset : Int)
    (rFinal : Response)
    (hdt : ctx.dtParse (ctx.dtFormat now) = now)
    (htok : ctx.jsonLoads tokBody =
      some (.jobj [("token", .jstr tok), ("expires_at", .jstr ex)]))
    (hrate : ctx.jsonLoads rateBody =
      some (.jobj [("rate", .jobj [("remaining", .jnum rem), ("reset", .jnum reset)])]))
    (hrem : rem ≠ 0) :
    queue_request ctx (IHState.init ctx Config.empty now inst_id) Config.empty
        now "GET" "/x" none
        [⟨200, tokBody, false⟩, ⟨200, rateBody, false⟩, rFinal] =
      ⟨(requestOne ctx ("token " ++ tok) "GET" "/x" none [rFinal]).res,
       ⟨inst_id, rem - 1, reset, ctx.dtParse ex, some tok⟩,
       ⟨none, none, none, none,
        [(inst_id, ⟨rem - 1, ctx.dtFormat (ctx.dtParse ex), reset, some tok⟩)]⟩,
       [.jwtSign now (now + 600) ctx.integration_id,
        .http ("Bearer " ++ ctx.jwtEnc now (now + 600) ctx.integration_id)
          "POST" (installation_url inst_id) none,
        .http ("token " ++ tok) "GET" rate_limit_url none,
        .sleep (((reset - now : Int) : ℚ) / (rem : ℚ)),
        .persist inst_id ⟨rem - 1, ctx.dtFormat (ctx.dtParse ex), reset, some tok⟩,
        .http ("token " ++ tok) "GET" "/x" none],
       []⟩ := by
  have hexp : (IHState.init ctx Config.empty now inst_id).next_token_sync ≤ now := by
    simp [IHState.init, Config.empty, hdt]
  have hsync := sync_token_refresh_eq ctx
    (IHState.init ctx Config.empty now inst_id) now tokBody tok ex
    [⟨200, rateBody, false⟩, rFinal] hexp htok
  have hle : ({ IHState.init ctx Config.empty now inst_id with
      token := some tok, next_token_sync := ctx.dtParse ex } : IHState).reset_time
        ≤ now := by
    simp [IHState.init, Config.empty]
  have hwait := wait_time_resync_eq ctx
    { IHState.init ctx Config.empty now inst_id with
      token := some tok, next_token_sync := ctx.dtParse ex }
    now rateBody rem reset [rFinal] hle hrate hrem
  simp only [IHState.init, Config.empty, Option.getD_none, Option.getD_some,
    hdt] at hsync hwait
  simp only [queue_request, IHState.init, Config.empty, Option.getD_none,
    hdt, hsync, hwait, update_config, dictSet, requestOne_evs,
    requestOne_rest, Option.getD_some]
  simp

/-- Witness for C1: installation 42, no persisted state, at time 1000;
the rate response grants 50 calls until 1500, so the wait is 10 seconds
and the persisted remaining count is 49. -/
theorem C1_first_enqueue_runs_steps_in_order_witness :
    queue_request ctxW (IHState.init ctxW Config.empty 1000 42) Config.empty
        1000 "GET" "/x" none
        [⟨200, "TOKBODY", false⟩, ⟨200, "RATEBODY", false⟩,
         ⟨200, "diff text", false⟩] =
      ⟨.ok (.str "diff text"),
       ⟨42, 49, 1500, 4600, some "TOK"⟩,
       ⟨none, none, none, none, [(42, ⟨49, "4600", 1500, some "TOK"⟩)]⟩,
       [.jwtSign 1000 1600 7,
        .http ("Bearer " ++ ctxW.jwtEnc 1000 1600 7) "POST"
          (installation_url 42) none,
        .http "token TOK" "GET" rate_limit_url none,
        .sleep 10,
        .persist 42 ⟨49, "4600", 1500, some "TOK"⟩,
        .http "token TOK" "GET" "/x" none],
       []⟩ := by
  have h := C1_first_enqueue_runs_steps_in_order ctxW 42 1000 "TOKBODY"
    "RATEBODY" "TOK" "4600" 50 1500 ⟨200, "diff text", false⟩ rfl rfl rfl
    (by decide)
  have e : (((1500 - 1000 : Int) : ℚ) / ((50 : Int) : ℚ)) = 10 := by norm_num
  rw [h, e]
  rfl

/-- C4 (amended): for every response with status outside 200-299, the
call fails by raising the bare exception (the error value carries
neither the status nor the body — see the counterexample), no retry is
attempted by this layer (exactly one HTTP event for the call), and the
already-decremented remaining count is preserved in the handler state
and in the persisted record. -/
theorem C4_failure_raises_and_preserves_state (ctx : Ctx) (st : IHState)
    (cfg : Config) (now : Int) (url : String) (r : Response)
    (hTok : now < st.next_token_sync) (hReset : now < st.reset_time)
    (hRem : st.remaining ≠ 0) (hErr : r.status < 200 ∨ 300 ≤ r.status) :
    queue_request ctx st cfg now "GET" url none [r] =
      ⟨.error .exc, { st with remaining := st.remaining - 1 },
       { cfg with byId := (dictSet cfg.byId st.inst_id (update_config ctx { st with remaining := st.remaining - 1 })) },
       [.sleep (((st.reset_time - now : Int) : ℚ) / (st.remaining : ℚ)),
        .persist st.inst_id (update_config ctx { st with remaining := st.remaining - 1 }),
        .http ("token " ++ st.token.getD "None") "GET" url none],
       []⟩ := by
  have hsync := sync_token_noop ctx st now [r] hTok
  have hwait := wait_time_no_resync ctx st now [r] hReset hRem
  have hreq := requestOne_err ctx ("token " ++ st.token.getD "None") "GET" url
    none r [] hErr
  simp only [queue_request, hsync, hwait, hreq]
  rfl

/-- Witness for C4: a 404 with body `"not found"`; the handler had 5
calls remaining, and the failed call leaves remaining = 4 both in the
state and in the persisted record, with exactly one HTTP event. -/
theorem C4_failure_raises_and_preserves_state_witness :
    queue_request ctxW ⟨42, 5, 1100, 4600, some "TOK"⟩ Config.empty 1000
        "GET" "/issue" none [⟨404, "not found", false⟩] =
      ⟨.error .exc, ⟨42, 4, 1100, 4600, some "TOK"⟩,
       ⟨none, none, none, none, [(42, ⟨4, "4600", 1100, some "TOK"⟩)]⟩,
       [.sleep 20, .persist 42 ⟨4, "4600", 1100, some "TOK"⟩,
        .http "token TOK" "GET" "/issue" none],
       []⟩ := by
  have h := C4_failure_raises_and_preserves_state ctxW
    ⟨42, 5, 1100, 4600, some "TOK"⟩ Config.empty 1000 "/issue"
    ⟨404, "not found", false⟩ (by norm_num) (by norm_num) (by norm_num)
    (by norm_num)
  have e : ((((⟨42, 5, 1100, 4600, some "TOK"⟩ : IHState).reset_time - 1000 : Int)) : ℚ) /
      ((⟨42, 5, 1100, 4600, some "TOK"⟩ : IHState).remaining : ℚ) = 20 := by
    norm_num
  rw [h, e]
  rfl

/-- C4 (counterexample to the claim as stated): the raised error cannot
carry the response status and body.  There is no extraction function
that reads `(status, body)` back out of the error value, because the
responses `404 / "not found"` and `500 / "oops"` raise the very same
bare exception value. -/
theorem C4_error_carries_no_status_or_body :
    ¬ ∃ f : PyErr → Int × String,
      (∀ e, (requestOne ctxW "token TOK" "GET" "/x" none
          [⟨404, "not found", false⟩]).res = .error e → f e = (404, "not found")) ∧
      (∀ e, (requestOne ctxW "token TOK" "GET" "/x" none
          [⟨500, "oops", false⟩]).res = .error e → f e = (500, "oops")) := by
  rintro ⟨f, h1, h2⟩
  have e1 : f .exc = (404, "not found") := h1 .exc rfl
  have e2 : f .exc = (500, "oops") := h2 .exc rfl
  rw [e1] at e2
  simp at e2

/-- Prefixing a trace that contains no HTTP request to `url` delays the
first request to `url` by the whole slept time of the prefix. -/
theorem timeOfFirstHttpTo_append (url : String) (xs ys : List Event)
    (h : hasHttpTo url xs = false) :
    timeOfFirstHttpTo url (xs ++ ys) =
      (timeOfFirstHttpTo url ys).map (fun t => elapsed xs + t) := by
  induction xs with
  | nil => cases h0 : timeOfFirstHttpTo url ys <;> simp [elapsed, h0]
  | cons e rest ih =>
    cases e with
    | jwtSign iat ex iss =>
      simp only [hasHttpTo] at h
      cases h0 : timeOfFirstHttpTo url ys <;>
        simp [timeOfFirstHttpTo, elapsed, ih h, h0]
    | sleep i =>
      simp only [hasHttpTo] at h
      cases h0 : timeOfFirstHttpTo url ys <;>
        simp [timeOfFirstHttpTo, elapsed, ih h, h0, add_assoc]
    | persist k r0 =>
      simp only [hasHttpTo] at h
      cases h0 : timeOfFirstHttpTo url ys <;>
        simp [timeOfFirstHttpTo, elapsed, ih h, h0]
    | http a m u d =>
      simp only [hasHttpTo, Bool.or_eq_false_iff,
        decide_eq_false_iff_not] at h
      cases h0 : timeOfFirstHttpTo url ys <;>
        simp [timeOfFirstHttpTo, elapsed, ih h.2, h0, if_neg h.1]

/-- C9 (amended): the runner loop posts to installations one after
another in a single thread, so in the combined trace the first call to
B's url happens only after the entire slept time of A's preceding call
(which includes the wait interval computed for A): timing independence
does not hold.  Per-installation token/budget state, by contrast, is
kept in separate handler objects. -/
theorem C9_sequential_loop_delays_other_installation (ctx : Ctx)
    (cfg : Config) (now : Int) (stA : IHState) (urlA : String)
    (rsA : List Response) (stB : IHState) (urlB : String)
    (rsB : List Response)
    (h : hasHttpTo urlB
      (queue_request ctx stA cfg now "GET" urlA none rsA).evs = false) :
    timeOfFirstHttpTo urlB
        (pokeAll ctx cfg now [(stA, urlA, rsA), (stB, urlB, rsB)]) =
      (timeOfFirstHttpTo urlB
          (pokeAll ctx
            (queue_request ctx stA cfg now "GET" urlA none rsA).config now
            [(stB, urlB, rsB)])).map
        (fun t =>
          elapsed (queue_request ctx stA cfg now "GET" urlA none rsA).evs + t) :=
  timeOfFirstHttpTo_append urlB _ _ h

/-- Witness for C9 (amended): installation A (id 1, one remaining call,
wait 100) posted before installation B (id 2, wait 1) in the same loop;
B's call time in the combined trace is A's full elapsed time plus B's
own wait. -/
theorem C9_sequential_loop_delays_other_installation_witness :
    timeOfFirstHttpTo "/b"
        (pokeAll ctxW Config.empty 1000
          [(⟨1, 1, 1100, 4600, some "TA"⟩, "/a", [⟨200, "x", false⟩]),
           (⟨2, 100, 1100, 4600, some "TB"⟩, "/b", [⟨200, "x", false⟩])]) =
      (timeOfFirstHttpTo "/b"
          (pokeAll ctxW
            (queue_request ctxW ⟨1, 1, 1100, 4600, some "TA"⟩ Config.empty
              1000 "GET" "/a" none [⟨200, "x", false⟩]).config 1000
            [(⟨2, 100, 1100, 4600, some "TB"⟩, "/b", [⟨200, "x", false⟩])])).map
        (fun t =>
          elapsed (queue_request ctxW ⟨1, 1, 1100, 4600, some "TA"⟩
            Config.empty 1000 "GET" "/a" none [⟨200, "x", false⟩]).evs + t) :=
  C9_sequential_loop_delays_other_installation ctxW Config.empty 1000
    ⟨1, 1, 1100, 4600, some "TA"⟩ "/a" [⟨200, "x", false⟩]
    ⟨2, 100, 1100, 4600, some "TB"⟩ "/b" [⟨200, "x", false⟩] rfl

/-- C9 (counterexample to the claim as stated): with A first in the
loop, B's call happens at virtual time 101 — delayed by the wait
interval 100 computed for A — whereas B run on its own is called at
time 1. -/
theorem C9_wait_of_A_delays_call_of_B :
    timeOfFirstHttpTo "/b"
        (pokeAll ctxW Config.empty 1000
          [(⟨1, 1, 1100, 4600, some "TA"⟩, "/a", [⟨200, "x", false⟩]),
           (⟨2, 100, 1100, 4600, some "TB"⟩, "/b", [⟨200, "x", false⟩])]) =
      some 101 ∧
    timeOfFirstHttpTo "/b"
        (pokeAll ctxW Config.empty 1000
          [(⟨2, 100, 1100, 4600, some "TB"⟩, "/b", [⟨200, "x", false⟩])]) =
      some 1 ∧
    (some (101 : ℚ) : Option ℚ) ≠ some (1 : ℚ) := by
  refine ⟨?_, ?_, by norm_num⟩
  · have h1 : timeOfFirstHttpTo "/b"
        (pokeAll ctxW Config.empty 1000
          [(⟨1, 1, 1100, 4600, some "TA"⟩, "/a", [⟨200, "x", false⟩]),
           (⟨2, 100, 1100, 4600, some "TB"⟩, "/b", [⟨200, "x", false⟩])]) =
        some ((((1100 : Int) - 1000 : Int) : ℚ) / ((1 : Int) : ℚ) +
          ((((1100 : Int) - 1000 : Int) : ℚ) / ((100 : Int) : ℚ) + 0)) := rfl
    rw [h1]
    simp only [Option.some.injEq]
    norm_num
  · have h2 : timeOfFirstHttpTo "/b"
        (pokeAll ctxW Config.empty 1000
          [(⟨2, 100, 1100, 4600, some "TB"⟩, "/b", [⟨200, "x", false⟩])]) =
        some ((((1100 : Int) - 1000 : Int) : ℚ) / ((100 : Int) : ℚ) + 0) := rfl
    rw [h2]
    simp only [Option.some.injEq]
    norm_num
